import Mathlib

/-!
Shallow embedding of the geometry and layout core of the grapheditor
repository (src/src/projectdesigner.cpp, class ProjectNode), over
wxWidgets-style integer points and rectangles.

Conventions of the embedding:
* wxPoint/wxRect carry `ℤ` coordinates; C++ `int` division truncates toward
  zero, which is `Int.tdiv` here (wrapped as `cppDiv`).
* wxRect helpers follow wxWidgets semantics: `GetRight = x + width - 1`,
  `GetBottom = y + height - 1`, `IsEmpty ↔ width ≤ 0 ∨ height ≤ 0`,
  `Inside pt ↔ x ≤ pt.x < x + width ∧ y ≤ pt.y < y + height`,
  `Deflate d` moves the origin by `d` and shrinks each dimension by `2 d`
  (the deflated rectangles are only inspected further when non-empty, where
  all wxWidgets versions agree).
* `double` arithmetic in `GetCornerPoint` is modelled over `ℝ`, with the
  C++ double-to-int conversion modelled as truncation toward zero.
* Collaborators that live outside the translated unit are parameters:
  the text measurer (wxDC::GetMultiLineTextExtent) is a function argument,
  the plain-rectangle perimeter point of the base class is an argument
  `basePt`, and the icon is its pair of pixel dimensions.
-/

/-- A wxPoint with integer coordinates. -/
structure Pt where
  x : ℤ
  y : ℤ
deriving DecidableEq, Repr

/-- A wxRect: origin plus width and height, integer coordinates. -/
structure Rect where
  x : ℤ
  y : ℤ
  width : ℤ
  height : ℤ
deriving DecidableEq, Repr

/-- The default-constructed wxRect `wxRect()`, all fields zero. -/
def Rect.emptyRect : Rect := ⟨0, 0, 0, 0⟩

/-- wxRect::GetRight. -/
def Rect.getRight (r : Rect) : ℤ := r.x + r.width - 1

/-- wxRect::GetBottom. -/
def Rect.getBottom (r : Rect) : ℤ := r.y + r.height - 1

/-- wxRect::IsEmpty. -/
def Rect.isEmpty (r : Rect) : Bool := r.width ≤ 0 || r.height ≤ 0

/-- wxRect::Inside (containment of a point). -/
def Rect.inside (r : Rect) (p : Pt) : Bool :=
  r.x ≤ p.x && r.y ≤ p.y && p.y - r.y < r.height && p.x - r.x < r.width

/-- wxRect::Deflate by the same margin on all four sides. -/
def Rect.deflate (r : Rect) (d : ℤ) : Rect :=
  ⟨r.x + d, r.y + d, r.width - 2 * d, r.height - 2 * d⟩

/-- C++ truncating integer division, as used throughout ProjectNode. -/
def cppDiv (a b : ℤ) : ℤ := Int.tdiv a b

/-- C++ double-to-int conversion: truncation toward zero. -/
noncomputable def truncInt (x : ℝ) : ℤ := if 0 ≤ x then ⌊x⌋ else ⌈x⌉

/-! ### ProjectNode::GetCornerPoint (projectdesigner.cpp lines 387-418)

The body first increments `radius`, translates both points by `-centre`,
fits the line `y = m x + c` through them, and solves against the circle
`x² + y² = radius²`. Each named intermediate below is one of the doubles
of the source. -/

/-- The slope `m` computed by GetCornerPoint: difference of the translated
points' coordinates (integer subtractions), divided in double. -/
noncomputable def cornerM (centre inside outside : Pt) : ℝ :=
  (((outside.y - centre.y) - (inside.y - centre.y) : ℤ) : ℝ) /
    (((outside.x - centre.x) - (inside.x - centre.x) : ℤ) : ℝ)

/-- The intercept `c = pt.y - m * pt.x` of GetCornerPoint, with `pt` the
translated outside point. -/
noncomputable def cornerC (centre inside outside : Pt) : ℝ :=
  ((outside.y - centre.y : ℤ) : ℝ) -
    cornerM centre inside outside * ((outside.x - centre.x : ℤ) : ℝ)

/-- The argument `(m2 + 1) * r2 - c2` given to `sqrt` in GetCornerPoint,
where `r2 = radius * radius` is computed after the `radius++`. -/
noncomputable def cornerDisc (centre : Pt) (radius : ℤ) (inside outside : Pt) : ℝ :=
  (cornerM centre inside outside * cornerM centre inside outside + 1) *
      (((radius + 1) * (radius + 1) : ℤ) : ℝ) -
    cornerC centre inside outside * cornerC centre inside outside

/-- The same discriminant computed in exact rational arithmetic; it agrees
with `cornerDisc` (see `cornerDisc_eq_ratCast`) and is executable. -/
def cornerDiscQ (centre : Pt) (radius : ℤ) (inside outside : Pt) : ℚ :=
  let m : ℚ := (((outside.y - centre.y) - (inside.y - centre.y) : ℤ) : ℚ) /
      (((outside.x - centre.x) - (inside.x - centre.x) : ℤ) : ℚ)
  let c : ℚ := ((outside.y - centre.y : ℤ) : ℚ) - m * ((outside.x - centre.x : ℤ) : ℚ)
  (m * m + 1) * (((radius + 1) * (radius + 1) : ℤ) : ℚ) - c * c

/-- ProjectNode::GetCornerPoint: solve the line through `inside` and
`outside` (translated so `centre` is the origin) against the circle of
radius `radius + 1`, pick the root selected by `sign`, translate back, and
truncate each coordinate to int. -/
noncomputable def GetCornerPoint (centre : Pt) (radius sign : ℤ) (inside outside : Pt) : Pt :=
  let m := cornerM centre inside outside
  let c := cornerC centre inside outside
  let G := Real.sqrt (cornerDisc centre radius inside outside)
  ⟨centre.x + truncInt (((sign : ℝ) * G - c * m) / (m * m + 1)),
    centre.y + truncInt (((sign : ℝ) * G * m + c) / (m * m + 1))⟩

/-! ### ProjectNode::GetPerimeterPoint (projectdesigner.cpp lines 420-449)

`GraphNode::GetPerimeterPoint` (the plain-rectangle perimeter point) is
implemented outside the translated unit; its result is taken here as the
argument `basePt`. -/

/-- The corner-circle radius `r = m_cornerRadius + m_borderThickness / 2`
of GetPerimeterPoint. -/
def perimeterRadius (cornerRadius borderThickness : ℤ) : ℤ :=
  cornerRadius + cppDiv borderThickness 2

/-- The rectangle `b`: the bounds deflated so that its corners are the
centres of the corner circles. -/
def perimeterInner (bounds : Rect) (cornerRadius borderThickness : ℤ) : Rect :=
  bounds.deflate (perimeterRadius cornerRadius borderThickness)

/-- ProjectNode::GetPerimeterPoint: start from the base class's
plain-rectangle point `basePt`; in the degenerate cases return it
unchanged; otherwise, if it falls in one of the four corner quadrants of
the deflated rectangle `b`, recompute against that corner's circle. -/
noncomputable def GetPerimeterPoint (bounds : Rect) (cornerRadius borderThickness : ℤ)
    (basePt inside outside : Pt) : Pt :=
  let r := perimeterRadius cornerRadius borderThickness
  let b := perimeterInner bounds cornerRadius borderThickness
  if b.isEmpty ∨ inside.x = outside.x ∨ inside.y = outside.y then basePt
  else if basePt.x < b.x ∧ basePt.y < b.y then
    GetCornerPoint ⟨b.x, b.y⟩ r (-1) inside outside
  else if basePt.x > b.getRight ∧ basePt.y < b.y then
    GetCornerPoint ⟨b.getRight, b.y⟩ r 1 inside outside
  else if basePt.x < b.x ∧ basePt.y > b.getBottom then
    GetCornerPoint ⟨b.x, b.getBottom⟩ r (-1) inside outside
  else if basePt.x > b.getRight ∧ basePt.y > b.getBottom then
    GetCornerPoint ⟨b.getRight, b.getBottom⟩ r 1 inside outside
  else basePt

/-- The closed form stated by the specification for GetCornerPoint, written
from the spec's own words as a refinement comparand: after translating both
points by `-centre`, `m = (outside.y - inside.y)/(outside.x - inside.x)`,
`c = outside.y - m * outside.x`,
`G = sqrt((m² + 1)·(radius + 1)² - c²)`, `x = (sign·G - c·m)/(m² + 1)`,
`y = (sign·G·m + c)/(m² + 1)`, and the result is
`centre + (int(x), int(y))` with double-to-int truncation. -/
noncomputable def cornerPointSpecForm (centre : Pt) (radius sign : ℤ) (inside outside : Pt) : Pt :=
  let m : ℝ := ((outside.y - inside.y : ℤ) : ℝ) / ((outside.x - inside.x : ℤ) : ℝ)
  let c : ℝ := ((outside.y - centre.y : ℤ) : ℝ) - m * ((outside.x - centre.x : ℤ) : ℝ)
  let G : ℝ := Real.sqrt ((m ^ 2 + 1) * ((radius + 1 : ℤ) : ℝ) ^ 2 - c ^ 2)
  let x : ℝ := (((sign : ℤ) : ℝ) * G - c * m) / (m ^ 2 + 1)
  let y : ℝ := (((sign : ℤ) : ℝ) * G * m + c) / (m ^ 2 + 1)
  ⟨centre.x + truncInt x, centre.y + truncInt y⟩

/-! ### Contract of the plain-rectangle perimeter point

GraphNode::GetPerimeterPoint is implemented outside the translated unit.
The predicates below are modelled from the spec and record only what the
spec promises about its result. -/

/-- Modelled from the spec: `inside` is strictly within the boundary's
outer rectangle (the missing piece is the caller contract of
GraphNode::GetPerimeterPoint, spec section 4.1). -/
def strictlyInside (r : Rect) (p : Pt) : Prop :=
  r.x < p.x ∧ p.x < r.getRight ∧ r.y < p.y ∧ p.y < r.getBottom

/-- Modelled from the spec: `outside` is strictly outside the boundary's
outer rectangle (spec section 4.1). -/
def strictlyOutside (r : Rect) (p : Pt) : Prop :=
  p.x < r.x ∨ r.getRight < p.x ∨ p.y < r.y ∨ r.getBottom < p.y

/-- Modelled from the spec: the point `p` lies on the segment from `a` to
`b` (collinear and within the bounding box of the endpoints); the missing
piece is GraphNode::GetPerimeterPoint, which the spec describes as the
point where the segment from inside to outside crosses the plain
rectangle. -/
def onSegment (a b p : Pt) : Prop :=
  (b.y - a.y) * (p.x - a.x) = (b.x - a.x) * (p.y - a.y) ∧
    min a.x b.x ≤ p.x ∧ p.x ≤ max a.x b.x ∧
    min a.y b.y ≤ p.y ∧ p.y ≤ max a.y b.y

/-- Modelled from the spec: the point `p` lies on the plain rectangle's
silhouette (one of its four edges); the missing piece is
GraphNode::GetPerimeterPoint, whose result the spec places on the plain
rectangle's boundary. -/
def onRectBoundary (r : Rect) (p : Pt) : Prop :=
  ((p.x = r.x ∨ p.x = r.getRight) ∧ r.y ≤ p.y ∧ p.y ≤ r.getBottom) ∨
    ((p.y = r.y ∨ p.y = r.getBottom) ∧ r.x ≤ p.x ∧ p.x ≤ r.getRight)

/-! ### ProjectNode state and mutators (projectdesigner.cpp lines 213-278)

The node's fields relevant to layout and hit testing. The font is an
abstract type parameter (only ever passed to the measurer), and the icon
is `none` when `m_icon.Ok()` is false, otherwise `some` of its pixel
dimensions. -/

/-- GraphNode::Style (include/graphctrl.h). -/
inductive Style where
  | Style_Custom
  | Style_Rectangle
  | Style_Elipse
  | Style_Triangle
  | Style_Diamond
deriving DecidableEq, Repr

/-- The region tags returned by ProjectNode::HitTest, modelled as an
inductive type of distinct tags (declared in the class header, outside
the translated unit). -/
inductive HitValue where
  | Hit_No
  | Hit_Yes
  | Hit_Operation
  | Hit_Result
  | Hit_Image
deriving DecidableEq, Repr

/-- The ProjectNode fields read and written by the translated methods. -/
structure NodeState (Font : Type) where
  text : String
  result : String
  icon : Option (ℤ × ℤ)
  font : Font
  style : Style
  borderThickness : ℤ
  cornerRadius : ℤ
  rcText : Rect
  rcResult : Rect
  rcIcon : Rect
  minSize : Pt
  divide : ℤ
  bounds : Rect

variable {Font : Type}

/-- ProjectNode::SetText: clear `m_rcText`, then delegate to
GraphNode::SetText, which stores the text (the delegate, outside the
translated unit, has no access to the other cached rectangles and only
ever triggers recomputation, never invalidation). -/
def SetText (t : String) (s : NodeState Font) : NodeState Font :=
  { s with rcText := Rect.emptyRect, text := t }

/-- ProjectNode::SetFont: clear `m_rcText` and `m_rcResult`, then delegate
to GraphNode::SetFont, which stores the font. -/
def SetFont (f : Font) (s : NodeState Font) : NodeState Font :=
  { s with rcText := Rect.emptyRect, rcResult := Rect.emptyRect, font := f }

/-- ProjectNode::SetResult: store the result text and clear `m_rcResult`
(the subsequent Layout/Refresh calls only recompute empty rectangles and
are modelled separately by `OnLayout`). -/
def SetResult (t : String) (s : NodeState Font) : NodeState Font :=
  { s with result := t, rcResult := Rect.emptyRect }

/-- ProjectNode::SetIcon: store the icon and clear `m_rcIcon`. -/
def SetIcon (i : Option (ℤ × ℤ)) (s : NodeState Font) : NodeState Font :=
  { s with icon := i, rcIcon := Rect.emptyRect }

/-- ProjectNode::SetBorderThickness: store the thickness and clear all
three cached rectangles. -/
def SetBorderThickness (t : ℤ) (s : NodeState Font) : NodeState Font :=
  { s with borderThickness := t, rcText := Rect.emptyRect,
           rcResult := Rect.emptyRect, rcIcon := Rect.emptyRect }

/-- ProjectNode::SetCornerRadius: store the radius and clear all three
cached rectangles. -/
def SetCornerRadius (r : ℤ) (s : NodeState Font) : NodeState Font :=
  { s with cornerRadius := r, rcText := Rect.emptyRect,
           rcResult := Rect.emptyRect, rcIcon := Rect.emptyRect }

/-! ### ProjectNode::OnLayout (projectdesigner.cpp lines 301-348) -/

/-- The `spacing` computed at the top of OnLayout, in C++ integer
arithmetic. -/
def layoutSpacing (cornerRadius borderThickness : ℤ) : ℤ :=
  cornerRadius + cppDiv borderThickness 2 -
    cppDiv ((cornerRadius - cppDiv borderThickness 2) * 1000000) 1414214

/-- The value of `m_rcText` after lines 310-314: re-measured and placed at
(spacing, spacing) when the cache is empty, otherwise untouched. -/
def layoutTextRect (measure : Font → String → ℤ × ℤ) (s : NodeState Font) : Rect :=
  if s.rcText.isEmpty then
    ⟨layoutSpacing s.cornerRadius s.borderThickness,
      layoutSpacing s.cornerRadius s.borderThickness,
      (measure s.font s.text).1, (measure s.font s.text).2⟩
  else s.rcText

/-- The value of `m_rcIcon` after lines 316-318: placed at (spacing, 0)
with the icon's dimensions when the icon is valid and the cache is empty,
otherwise untouched. -/
def layoutIconRect (s : NodeState Font) : Rect :=
  match s.icon with
  | some wh =>
      if s.rcIcon.isEmpty then
        ⟨layoutSpacing s.cornerRadius s.borderThickness, 0, wh.1, wh.2⟩
      else s.rcIcon
  | none => s.rcIcon

/-- The value of `m_rcResult` after lines 320-326: re-measured and placed
at (spacing + iconHSpace, 0) when the cache is empty, where
`iconHSpace = m_rcIcon.width + spacing`, otherwise untouched. -/
def layoutResultRect (measure : Font → String → ℤ × ℤ) (s : NodeState Font) : Rect :=
  if s.rcResult.isEmpty then
    ⟨layoutSpacing s.cornerRadius s.borderThickness +
        ((layoutIconRect s).width + layoutSpacing s.cornerRadius s.borderThickness), 0,
      (measure s.font s.result).1, (measure s.font s.result).2⟩
  else s.rcResult

/-- `m_minSize.x` of lines 328-329. -/
def layoutMinX (measure : Font → String → ℤ × ℤ) (s : NodeState Font) : ℤ :=
  max (layoutTextRect measure s).getRight (layoutResultRect measure s).getRight +
    layoutSpacing s.cornerRadius s.borderThickness + 1

/-- `m_minSize.y` of lines 331-332. -/
def layoutMinY (measure : Font → String → ℤ × ℤ) (s : NodeState Font) : ℤ :=
  max (layoutIconRect s).height (layoutResultRect measure s).height +
    (layoutTextRect measure s).getBottom + 2 +
    2 * layoutSpacing s.cornerRadius s.borderThickness - s.borderThickness

/-- The bounds width after the growth step of lines 336-342. -/
def layoutNewW (measure : Font → String → ℤ × ℤ) (s : NodeState Font) : ℤ :=
  if s.bounds.width < layoutMinX measure s then layoutMinX measure s else s.bounds.width

/-- The bounds height after the growth step of lines 336-342. -/
def layoutNewH (measure : Font → String → ℤ × ℤ) (s : NodeState Font) : ℤ :=
  if s.bounds.height < layoutMinY measure s then layoutMinY measure s else s.bounds.height

/-- `m_divide` of line 344. -/
def layoutDivide (measure : Font → String → ℤ × ℤ) (s : NodeState Font) : ℤ :=
  (layoutTextRect measure s).getBottom + 1 +
    layoutSpacing s.cornerRadius s.borderThickness - s.borderThickness

/-- `mid` of line 345, using the grown bounds height. -/
def layoutMid (measure : Font → String → ℤ × ℤ) (s : NodeState Font) : ℤ :=
  cppDiv (layoutDivide measure s + layoutNewH measure s) 2

/-- ProjectNode::OnLayout: recompute whichever cached rectangles are
empty (text extents come from the measurer argument, standing for
wxDC::GetMultiLineTextExtent), derive `m_minSize`, grow the bounds to it
dimension-wise (GraphNode::SetSize, outside the translated unit, stores
the new size - modelled from the spec's growth policy), compute
`m_divide`, and vertically centre the icon and result rectangles on
`mid`; each intermediate of the source body is one of the named
definitions above. -/
def OnLayout (measure : Font → String → ℤ × ℤ) (s : NodeState Font) : NodeState Font :=
  { s with
      rcText := layoutTextRect measure s,
      rcIcon := { layoutIconRect s with
        y := layoutMid measure s - cppDiv (layoutIconRect s).height 2 },
      rcResult := { layoutResultRect measure s with
        y := layoutMid measure s - cppDiv (layoutResultRect measure s).height 2 },
      minSize := ⟨layoutMinX measure s, layoutMinY measure s⟩,
      divide := layoutDivide measure s,
      bounds := { s.bounds with
        width := layoutNewW measure s, height := layoutNewH measure s } }

/-! ### ProjectNode::HitTest (projectdesigner.cpp lines 280-299) -/

/-- ProjectNode::HitTest: points outside the bounds miss; under
Style_Custom the cached rectangles, translated by the bounds' top-left
corner, are tested in the order text, result, icon; anything else inside
the bounds is a generic hit. -/
def HitTest (s : NodeState Font) (pt : Pt) : HitValue :=
  if ¬ s.bounds.inside pt then HitValue.Hit_No
  else if s.style = Style.Style_Custom then
    let ptNode : Pt := ⟨pt.x - s.bounds.x, pt.y - s.bounds.y⟩
    if s.rcText.inside ptNode then HitValue.Hit_Operation
    else if s.rcResult.inside ptNode then HitValue.Hit_Result
    else if s.rcIcon.inside ptNode then HitValue.Hit_Image
    else HitValue.Hit_Yes
  else HitValue.Hit_Yes

/-! ## Basic evaluation checks -/

example : cppDiv (-3000000) 1414214 = -2 := by decide
example : cppDiv (-7) 2 = -3 := by decide
example : Rect.deflate ⟨0, 0, 100, 100⟩ 10 = ⟨10, 10, 80, 80⟩ := by decide
example : cornerDiscQ ⟨10, 10⟩ 10 ⟨1, 1⟩ ⟨-1, 3⟩ = -82 := by norm_num [cornerDiscQ]

/-! ## Shared lemmas about the corner solver -/

/-- The slope computed from the translated points equals the slope of the
untranslated points. -/
lemma cornerM_eq (centre inside outside : Pt) :
    cornerM centre inside outside =
      ((outside.y - inside.y : ℤ) : ℝ) / ((outside.x - inside.x : ℤ) : ℝ) := by
  unfold cornerM
  rw [show (outside.y - centre.y) - (inside.y - centre.y) = outside.y - inside.y by ring,
    show (outside.x - centre.x) - (inside.x - centre.x) = outside.x - inside.x by ring]

/-- The real discriminant of the solver agrees with its exact rational
evaluation. -/
lemma cornerDisc_eq_ratCast (centre : Pt) (radius : ℤ) (inside outside : Pt) :
    cornerDisc centre radius inside outside =
      ((cornerDiscQ centre radius inside outside : ℚ) : ℝ) := by
  unfold cornerDisc cornerDiscQ cornerC cornerM
  push_cast
  ring

/-- GetCornerPoint computes exactly the closed form stated by the spec. -/
lemma cornerPoint_eq_specForm (centre : Pt) (radius sign : ℤ) (inside outside : Pt) :
    GetCornerPoint centre radius sign inside outside =
      cornerPointSpecForm centre radius sign inside outside := by
  have hm := cornerM_eq centre inside outside
  have hD : cornerDisc centre radius inside outside =
      (cornerM centre inside outside ^ 2 + 1) * ((radius + 1 : ℤ) : ℝ) ^ 2 -
        cornerC centre inside outside ^ 2 := by
    unfold cornerDisc
    push_cast
    ring
  simp only [GetCornerPoint, cornerPointSpecForm, hD, cornerC, hm]
  congr 2 <;> ring_nf

/-- An empty-test coming back false means both dimensions are positive. -/
lemma isEmpty_false_iff (r : Rect) : r.isEmpty = false ↔ 0 < r.width ∧ 0 < r.height := by
  simp [Rect.isEmpty]

/-- The sqrt argument of the solver, rewritten with the bumped radius
squared: it is the discriminant for a circle of radius `radius + 1`. -/
lemma cornerDisc_sq_form (centre : Pt) (radius : ℤ) (inside outside : Pt) :
    cornerDisc centre radius inside outside =
      (cornerM centre inside outside ^ 2 + 1) * ((radius + 1 : ℤ) : ℝ) ^ 2 -
        cornerC centre inside outside ^ 2 := by
  unfold cornerDisc
  push_cast
  ring

/-! ## Claim C1 -/

/-- C1: whenever the rectangle obtained by deflating the bounds by
`cornerRadius + borderThickness / 2` is empty, or `inside.x = outside.x`,
or `inside.y = outside.y`, GetPerimeterPoint returns the base class's
plain-rectangle perimeter point unchanged, with no corner handling. -/
theorem claim1_degenerate_returns_base
    (bounds : Rect) (cornerRadius borderThickness : ℤ) (basePt inside outside : Pt)
    (h : (perimeterInner bounds cornerRadius borderThickness).isEmpty = true ∨
      inside.x = outside.x ∨ inside.y = outside.y) :
    GetPerimeterPoint bounds cornerRadius borderThickness basePt inside outside = basePt := by
  simp only [GetPerimeterPoint]
  rw [if_pos h]

/-- Witness for C1 at a rectangle too small for the requested radius. -/
theorem claim1_witness :
    ((perimeterInner ⟨0, 0, 5, 5⟩ 10 0).isEmpty = true ∨
        (Pt.mk 3 3).x = (Pt.mk 9 8).x ∨ (Pt.mk 3 3).y = (Pt.mk 9 8).y) ∧
      GetPerimeterPoint ⟨0, 0, 5, 5⟩ 10 0 ⟨1, 2⟩ ⟨3, 3⟩ ⟨9, 8⟩ = ⟨1, 2⟩ :=
  ⟨Or.inl (by decide),
    claim1_degenerate_returns_base ⟨0, 0, 5, 5⟩ 10 0 ⟨1, 2⟩ ⟨3, 3⟩ ⟨9, 8⟩ (Or.inl (by decide))⟩

/-! ## Claim C3 -/

/-- C3 counterexample: the rectangle `b` actually used by GetPerimeterPoint
is the bounds deflated by `cornerRadius + borderThickness / 2`, not by
`cornerRadius + borderThickness / 2 + 1` as the claim states; at bounds
(0,0,100,100) with cornerRadius 10 and borderThickness 6 the two differ. -/
theorem claim3_counterexample :
    perimeterInner ⟨0, 0, 100, 100⟩ 10 6 ≠
      Rect.deflate ⟨0, 0, 100, 100⟩ (10 + cppDiv 6 2 + 1) := by
  decide

/-- C3 amended: only the corner solver's circle radius is bumped by one
(GetCornerPoint increments `radius` before squaring it, so it intersects
against a circle of radius `cornerRadius + borderThickness/2 + 1`); the
deflate in GetPerimeterPoint uses `cornerRadius + borderThickness/2`
without the bump. -/
theorem claim3_amended_bump_only_in_solver :
    (∀ (bounds : Rect) (cornerRadius borderThickness : ℤ),
        perimeterInner bounds cornerRadius borderThickness =
          bounds.deflate (cornerRadius + cppDiv borderThickness 2)) ∧
      (∀ (centre : Pt) (radius : ℤ) (inside outside : Pt),
        cornerDisc centre radius inside outside =
          (cornerM centre inside outside ^ 2 + 1) * ((radius + 1 : ℤ) : ℝ) ^ 2 -
            cornerC centre inside outside ^ 2) :=
  ⟨fun _ _ _ => rfl, fun centre radius inside outside =>
    cornerDisc_sq_form centre radius inside outside⟩

/-! ## Claim C2 -/

/-- C2: for a non-vertical segment, GetCornerPoint returns exactly the
spec's closed form (translate by minus the centre, fit `y = m x + c`,
`G = sqrt((m²+1)(radius+1)² - c²)`, `x = (sign G - c m)/(m²+1)`,
`y = (sign G m + c)/(m²+1)`, truncate to int, translate back), and
GetPerimeterPoint's four call sites pass sign -1 for the top-left and
bottom-left corner circles and sign +1 for the top-right and bottom-right
ones. -/
theorem claim2_corner_solver_formula :
    (∀ (centre : Pt) (radius sign : ℤ) (inside outside : Pt),
        inside.x ≠ outside.x →
        0 ≤ cornerDisc centre radius inside outside →
        GetCornerPoint centre radius sign inside outside =
          cornerPointSpecForm centre radius sign inside outside) ∧
      ∀ (bounds : Rect) (cornerRadius borderThickness : ℤ) (basePt inside outside : Pt),
        ¬ ((perimeterInner bounds cornerRadius borderThickness).isEmpty = true ∨
            inside.x = outside.x ∨ inside.y = outside.y) →
        (basePt.x < (perimeterInner bounds cornerRadius borderThickness).x ∧
            basePt.y < (perimeterInner bounds cornerRadius borderThickness).y →
          GetPerimeterPoint bounds cornerRadius borderThickness basePt inside outside =
            GetCornerPoint
              ⟨(perimeterInner bounds cornerRadius borderThickness).x,
                (perimeterInner bounds cornerRadius borderThickness).y⟩
              (perimeterRadius cornerRadius borderThickness) (-1) inside outside) ∧
        (basePt.x > (perimeterInner bounds cornerRadius borderThickness).getRight ∧
            basePt.y < (perimeterInner bounds cornerRadius borderThickness).y →
          GetPerimeterPoint bounds cornerRadius borderThickness basePt inside outside =
            GetCornerPoint
              ⟨(perimeterInner bounds cornerRadius borderThickness).getRight,
                (perimeterInner bounds cornerRadius borderThickness).y⟩
              (perimeterRadius cornerRadius borderThickness) 1 inside outside) ∧
        (basePt.x < (perimeterInner bounds cornerRadius borderThickness).x ∧
            basePt.y > (perimeterInner bounds cornerRadius borderThickness).getBottom →
          GetPerimeterPoint bounds cornerRadius borderThickness basePt inside outside =
            GetCornerPoint
              ⟨(perimeterInner bounds cornerRadius borderThickness).x,
                (perimeterInner bounds cornerRadius borderThickness).getBottom⟩
              (perimeterRadius cornerRadius borderThickness) (-1) inside outside) ∧
        (basePt.x > (perimeterInner bounds cornerRadius borderThickness).getRight ∧
            basePt.y > (perimeterInner bounds cornerRadius borderThickness).getBottom →
          GetPerimeterPoint bounds cornerRadius borderThickness basePt inside outside =
            GetCornerPoint
              ⟨(perimeterInner bounds cornerRadius borderThickness).getRight,
                (perimeterInner bounds cornerRadius borderThickness).getBottom⟩
              (perimeterRadius cornerRadius borderThickness) 1 inside outside) := by
  constructor
  · intro centre radius sign inside outside _ _
    exact cornerPoint_eq_specForm centre radius sign inside outside
  · intro bounds cornerRadius borderThickness basePt inside outside hguard
    have hne : (perimeterInner bounds cornerRadius borderThickness).isEmpty = false := by
      cases h : (perimeterInner bounds cornerRadius borderThickness).isEmpty with
      | false => rfl
      | true => exact absurd (Or.inl h) hguard
    obtain ⟨hw, hh⟩ := (isEmpty_false_iff _).mp hne
    refine ⟨?_, ?_, ?_, ?_⟩
    · intro hreg
      simp only [GetPerimeterPoint]
      rw [if_neg hguard, if_pos hreg]
    · intro hreg
      have h1 : ¬ (basePt.x < (perimeterInner bounds cornerRadius borderThickness).x ∧
          basePt.y < (perimeterInner bounds cornerRadius borderThickness).y) := by
        simp only [Rect.getRight] at hreg
        omega
      simp only [GetPerimeterPoint]
      rw [if_neg hguard, if_neg h1, if_pos hreg]
    · intro hreg
      have h1 : ¬ (basePt.x < (perimeterInner bounds cornerRadius borderThickness).x ∧
          basePt.y < (perimeterInner bounds cornerRadius borderThickness).y) := by
        simp only [Rect.getBottom] at hreg
        omega
      have h2 : ¬ (basePt.x > (perimeterInner bounds cornerRadius borderThickness).getRight ∧
          basePt.y < (perimeterInner bounds cornerRadius borderThickness).y) := by
        simp only [Rect.getRight, Rect.getBottom] at hreg ⊢
        omega
      simp only [GetPerimeterPoint]
      rw [if_neg hguard, if_neg h1, if_neg h2, if_pos hreg]
    · intro hreg
      have h1 : ¬ (basePt.x < (perimeterInner bounds cornerRadius borderThickness).x ∧
          basePt.y < (perimeterInner bounds cornerRadius borderThickness).y) := by
        simp only [Rect.getRight, Rect.getBottom] at hreg ⊢
        omega
      have h2 : ¬ (basePt.x > (perimeterInner bounds cornerRadius borderThickness).getRight ∧
          basePt.y < (perimeterInner bounds cornerRadius borderThickness).y) := by
        simp only [Rect.getRight, Rect.getBottom] at hreg ⊢
        omega
      have h3 : ¬ (basePt.x < (perimeterInner bounds cornerRadius borderThickness).x ∧
          basePt.y > (perimeterInner bounds cornerRadius borderThickness).getBottom) := by
        simp only [Rect.getRight, Rect.getBottom] at hreg ⊢
        omega
      simp only [GetPerimeterPoint]
      rw [if_neg hguard, if_neg h1, if_neg h2, if_neg h3, if_pos hreg]

/-- Witness for C2: the solver formula at a concrete non-degenerate input
with non-negative discriminant, and the top-left call site at a concrete
perimeter configuration. -/
theorem claim2_witness :
    ((Pt.mk (-10) (-1)).x ≠ (Pt.mk 10 1).x ∧
        0 ≤ cornerDisc ⟨0, 0⟩ 4 ⟨-10, -1⟩ ⟨10, 1⟩ ∧
        GetCornerPoint ⟨0, 0⟩ 4 1 ⟨-10, -1⟩ ⟨10, 1⟩ =
          cornerPointSpecForm ⟨0, 0⟩ 4 1 ⟨-10, -1⟩ ⟨10, 1⟩) ∧
      (¬ ((perimeterInner ⟨0, 0, 100, 100⟩ 10 6).isEmpty = true ∨
            (Pt.mk 50 50).x = (Pt.mk (-50) (-49)).x ∨
            (Pt.mk 50 50).y = (Pt.mk (-50) (-49)).y) ∧
        (Pt.mk 5 5).x < (perimeterInner ⟨0, 0, 100, 100⟩ 10 6).x ∧
        (Pt.mk 5 5).y < (perimeterInner ⟨0, 0, 100, 100⟩ 10 6).y ∧
        GetPerimeterPoint ⟨0, 0, 100, 100⟩ 10 6 ⟨5, 5⟩ ⟨50, 50⟩ ⟨-50, -49⟩ =
          GetCornerPoint
            ⟨(perimeterInner ⟨0, 0, 100, 100⟩ 10 6).x,
              (perimeterInner ⟨0, 0, 100, 100⟩ 10 6).y⟩
            (perimeterRadius 10 6) (-1) ⟨50, 50⟩ ⟨-50, -49⟩) := by
  have hdisc : 0 ≤ cornerDisc ⟨0, 0⟩ 4 ⟨-10, -1⟩ ⟨10, 1⟩ := by
    rw [cornerDisc_eq_ratCast]
    norm_num [cornerDiscQ]
  refine ⟨⟨by decide, hdisc, ?_⟩, ⟨by decide, by decide, by decide, ?_⟩⟩
  · exact claim2_corner_solver_formula.1 ⟨0, 0⟩ 4 1 ⟨-10, -1⟩ ⟨10, 1⟩ (by decide) hdisc
  · exact (claim2_corner_solver_formula.2 ⟨0, 0, 100, 100⟩ 10 6 ⟨5, 5⟩ ⟨50, 50⟩ ⟨-50, -49⟩
      (by decide)).1 ⟨by decide, by decide⟩

/-! ## Claim C7 -/

/-- C7 counterexample: the stated precondition (inside strictly inside the
bounds, outside strictly outside, no shared coordinate, non-empty deflated
rectangle, plain point on the segment and on the rectangle silhouette) does
not make every corner call's discriminant non-negative: at bounds
(0,0,100,100), cornerRadius 10, borderThickness 0, inside (1,1),
outside (-1,3) and plain point (0,2) the top-left call's discriminant is
-82. -/
theorem claim7_counterexample :
    ¬ (∀ (bounds : Rect) (cornerRadius borderThickness : ℤ) (basePt inside outside : Pt),
        strictlyInside bounds inside →
        strictlyOutside bounds outside →
        inside.x ≠ outside.x →
        inside.y ≠ outside.y →
        (perimeterInner bounds cornerRadius borderThickness).isEmpty = false →
        onSegment inside outside basePt →
        onRectBoundary bounds basePt →
        (basePt.x < (perimeterInner bounds cornerRadius borderThickness).x ∧
            basePt.y < (perimeterInner bounds cornerRadius borderThickness).y →
          0 ≤ cornerDisc
              ⟨(perimeterInner bounds cornerRadius borderThickness).x,
                (perimeterInner bounds cornerRadius borderThickness).y⟩
              (perimeterRadius cornerRadius borderThickness) inside outside) ∧
        (basePt.x > (perimeterInner bounds cornerRadius borderThickness).getRight ∧
            basePt.y < (perimeterInner bounds cornerRadius borderThickness).y →
          0 ≤ cornerDisc
              ⟨(perimeterInner bounds cornerRadius borderThickness).getRight,
                (perimeterInner bounds cornerRadius borderThickness).y⟩
              (perimeterRadius cornerRadius borderThickness) inside outside) ∧
        (basePt.x < (perimeterInner bounds cornerRadius borderThickness).x ∧
            basePt.y > (perimeterInner bounds cornerRadius borderThickness).getBottom →
          0 ≤ cornerDisc
              ⟨(perimeterInner bounds cornerRadius borderThickness).x,
                (perimeterInner bounds cornerRadius borderThickness).getBottom⟩
              (perimeterRadius cornerRadius borderThickness) inside outside) ∧
        (basePt.x > (perimeterInner bounds cornerRadius borderThickness).getRight ∧
            basePt.y > (perimeterInner bounds cornerRadius borderThickness).getBottom →
          0 ≤ cornerDisc
              ⟨(perimeterInner bounds cornerRadius borderThickness).getRight,
                (perimeterInner bounds cornerRadius borderThickness).getBottom⟩
              (perimeterRadius cornerRadius borderThickness) inside outside)) := by
  intro h
  have h2 := (h ⟨0, 0, 100, 100⟩ 10 0 ⟨0, 2⟩ ⟨1, 1⟩ ⟨-1, 3⟩
      (by norm_num [strictlyInside, Rect.getRight, Rect.getBottom])
      (Or.inl (by norm_num))
      (by norm_num) (by norm_num) (by decide)
      (by norm_num [onSegment])
      (Or.inl (by norm_num [Rect.getRight, Rect.getBottom]))).1 ⟨by decide, by decide⟩
  rw [show perimeterRadius 10 0 = 10 from by decide] at h2
  rw [show perimeterInner ⟨0, 0, 100, 100⟩ 10 0 = ⟨10, 10, 80, 80⟩ from by decide] at h2
  rw [cornerDisc_eq_ratCast,
    show cornerDiscQ ⟨10, 10⟩ 10 ⟨1, 1⟩ ⟨-1, 3⟩ = -82 from by norm_num [cornerDiscQ]] at h2
  norm_num at h2

/-- C7 amended: the precondition does not bound the discriminant below;
what holds is the algebraic characterization - the sqrt argument is
non-negative exactly when `c² ≤ (m² + 1)·(radius + 1)²`, that is, when the
line through inside and outside passes within distance `radius + 1` of the
corner-circle centre. Moreover the negative case is reachable: at the
counterexample's inputs GetPerimeterPoint really makes the top-left corner
call, whose discriminant is -82. -/
theorem claim7_amended_disc_characterization :
    (∀ (centre : Pt) (radius : ℤ) (inside outside : Pt),
        0 ≤ cornerDisc centre radius inside outside ↔
          cornerC centre inside outside ^ 2 ≤
            (cornerM centre inside outside ^ 2 + 1) * ((radius + 1 : ℤ) : ℝ) ^ 2) ∧
      GetPerimeterPoint ⟨0, 0, 100, 100⟩ 10 0 ⟨0, 2⟩ ⟨1, 1⟩ ⟨-1, 3⟩ =
        GetCornerPoint ⟨10, 10⟩ 10 (-1) ⟨1, 1⟩ ⟨-1, 3⟩ ∧
      cornerDisc ⟨10, 10⟩ 10 ⟨1, 1⟩ ⟨-1, 3⟩ < 0 := by
  refine ⟨?_, ?_, ?_⟩
  · intro centre radius inside outside
    rw [cornerDisc_sq_form]
    exact sub_nonneg
  · simp only [GetPerimeterPoint]
    rw [if_neg (by decide), if_pos (by decide)]
    rfl
  · rw [cornerDisc_eq_ratCast,
      show cornerDiscQ ⟨10, 10⟩ 10 ⟨1, 1⟩ ⟨-1, 3⟩ = -82 from by norm_num [cornerDiscQ]]
    norm_num

/-! ## Claim C4 -/

/-- C4 counterexample: SetText does not reset the cached result rectangle
(nor the icon rectangle): starting from a state whose result rectangle is
(1,1,5,5), it is still (1,1,5,5) after SetText. -/
theorem claim4_counterexample :
    ¬ ((SetText "x" (⟨"a", "b", none, (), Style.Style_Custom, 6, 10,
          ⟨2, 2, 3, 3⟩, ⟨1, 1, 5, 5⟩, ⟨0, 0, 4, 4⟩, ⟨0, 0⟩, 0,
          ⟨0, 0, 100, 60⟩⟩ : NodeState Unit)).rcResult = Rect.emptyRect) := by
  decide

/-- C4 amended: each setter resets exactly the cached rectangles that
depend on the changed input, before any recomputation: SetText resets only
textRect; SetFont resets textRect and resultRect; SetResult resets only
resultRect; SetIcon resets only iconRect; SetBorderThickness and
SetCornerRadius reset all three. -/
theorem claim4_amended_selective_invalidation {F : Type} (s : NodeState F)
    (t u : String) (f : F) (i : Option (ℤ × ℤ)) (n k : ℤ) :
    ((SetText t s).rcText = Rect.emptyRect ∧
        (SetText t s).rcResult = s.rcResult ∧ (SetText t s).rcIcon = s.rcIcon) ∧
      ((SetFont f s).rcText = Rect.emptyRect ∧
        (SetFont f s).rcResult = Rect.emptyRect ∧ (SetFont f s).rcIcon = s.rcIcon) ∧
      ((SetResult u s).rcText = s.rcText ∧
        (SetResult u s).rcResult = Rect.emptyRect ∧ (SetResult u s).rcIcon = s.rcIcon) ∧
      ((SetIcon i s).rcText = s.rcText ∧
        (SetIcon i s).rcResult = s.rcResult ∧ (SetIcon i s).rcIcon = Rect.emptyRect) ∧
      ((SetBorderThickness n s).rcText = Rect.emptyRect ∧
        (SetBorderThickness n s).rcResult = Rect.emptyRect ∧
        (SetBorderThickness n s).rcIcon = Rect.emptyRect) ∧
      ((SetCornerRadius k s).rcText = Rect.emptyRect ∧
        (SetCornerRadius k s).rcResult = Rect.emptyRect ∧
        (SetCornerRadius k s).rcIcon = Rect.emptyRect) :=
  ⟨⟨rfl, rfl, rfl⟩, ⟨rfl, rfl, rfl⟩, ⟨rfl, rfl, rfl⟩,
    ⟨rfl, rfl, rfl⟩, ⟨rfl, rfl, rfl⟩, ⟨rfl, rfl, rfl⟩⟩

/-! ## Claim C5 -/

/-- C5: one layout pass leaves the bounds' width at the maximum of its
previous value and the computed minimum width, the height at the maximum
of its previous value and the computed minimum height, and the position
untouched: deficient dimensions grow to exactly minSize, satisfied ones
are unchanged, and nothing ever shrinks. -/
theorem claim5_growth_to_min_size {F : Type} (measure : F → String → ℤ × ℤ)
    (s : NodeState F) :
    (OnLayout measure s).bounds.width =
        max s.bounds.width (OnLayout measure s).minSize.x ∧
      (OnLayout measure s).bounds.height =
        max s.bounds.height (OnLayout measure s).minSize.y ∧
      (OnLayout measure s).bounds.x = s.bounds.x ∧
      (OnLayout measure s).bounds.y = s.bounds.y := by
  simp only [OnLayout]
  refine ⟨?_, ?_, trivial, trivial⟩ <;>
    simp only [layoutNewW, layoutNewH] <;> split_ifs <;> omega

/-! ## Claim C6 -/

/-- C6: after a layout pass the minimum size satisfies
`minSize.x = max(textRect.right, resultRect.right) + spacing + 1` and
`minSize.y = max(iconRect.height, resultRect.height) + textRect.bottom
+ 2 + 2·spacing - borderThickness`, where the rectangles are the pass's
cached rectangles and
`spacing = cornerRadius + borderThickness/2
- (cornerRadius - borderThickness/2) * 1000000 / 1414214` in C++ integer
arithmetic. -/
theorem claim6_min_size_formulas {F : Type} (measure : F → String → ℤ × ℤ)
    (s : NodeState F) :
    (OnLayout measure s).minSize.x =
        max (OnLayout measure s).rcText.getRight (OnLayout measure s).rcResult.getRight +
          layoutSpacing s.cornerRadius s.borderThickness + 1 ∧
      (OnLayout measure s).minSize.y =
        max (OnLayout measure s).rcIcon.height (OnLayout measure s).rcResult.height +
          (OnLayout measure s).rcText.getBottom + 2 +
          2 * layoutSpacing s.cornerRadius s.borderThickness - s.borderThickness ∧
      layoutSpacing s.cornerRadius s.borderThickness =
        s.cornerRadius + cppDiv s.borderThickness 2 -
          cppDiv ((s.cornerRadius - cppDiv s.borderThickness 2) * 1000000) 1414214 := by
  refine ⟨?_, ?_, rfl⟩ <;>
    simp only [OnLayout, layoutMinX, layoutMinY, Rect.getRight, Rect.getBottom]

/-! ## Claim C8

One layout pass over unchanged inputs reproduces itself: every cached
rectangle that the first pass recomputed is reproduced identically by the
second pass, and the grown bounds already meet the (unchanged) minimum
size, so nothing moves. The lemmas below prove stability of each
intermediate of the pass. -/

section Stability

variable (measure : Font → String → ℤ × ℤ) (s : NodeState Font)

lemma text_onLayout : (OnLayout measure s).text = s.text := rfl

lemma result_onLayout : (OnLayout measure s).result = s.result := rfl

lemma icon_onLayout : (OnLayout measure s).icon = s.icon := rfl

lemma font_onLayout : (OnLayout measure s).font = s.font := rfl

lemma cr_onLayout : (OnLayout measure s).cornerRadius = s.cornerRadius := rfl

lemma bt_onLayout : (OnLayout measure s).borderThickness = s.borderThickness := rfl

lemma rcText_onLayout : (OnLayout measure s).rcText = layoutTextRect measure s := rfl

lemma rcIcon_onLayout : (OnLayout measure s).rcIcon =
    { layoutIconRect s with
      y := layoutMid measure s - cppDiv (layoutIconRect s).height 2 } := rfl

lemma rcResult_onLayout : (OnLayout measure s).rcResult =
    { layoutResultRect measure s with
      y := layoutMid measure s - cppDiv (layoutResultRect measure s).height 2 } := rfl

lemma boundsW_onLayout : (OnLayout measure s).bounds.width = layoutNewW measure s := rfl

lemma boundsH_onLayout : (OnLayout measure s).bounds.height = layoutNewH measure s := rfl

lemma isEmpty_update_y (r : Rect) (v : ℤ) :
    ({ r with y := v } : Rect).isEmpty = r.isEmpty := rfl

lemma text_stable :
    layoutTextRect measure (OnLayout measure s) = layoutTextRect measure s := by
  by_cases hc : s.rcText.isEmpty = true
  · simp only [layoutTextRect, rcText_onLayout, font_onLayout, text_onLayout,
      cr_onLayout, bt_onLayout, hc, if_true]
    split <;> rfl
  · rw [Bool.not_eq_true] at hc
    simp only [layoutTextRect, rcText_onLayout, font_onLayout, text_onLayout,
      cr_onLayout, bt_onLayout, hc, Bool.false_eq_true, if_false]

lemma icon_stable :
    (layoutIconRect (OnLayout measure s)).x = (layoutIconRect s).x ∧
      (layoutIconRect (OnLayout measure s)).width = (layoutIconRect s).width ∧
      (layoutIconRect (OnLayout measure s)).height = (layoutIconRect s).height := by
  refine ⟨?_, ?_, ?_⟩ <;>
    · rcases hi : s.icon with _ | ⟨iw, ih⟩ <;> by_cases hc : s.rcIcon.isEmpty = true <;>
        simp [layoutIconRect, icon_onLayout, rcIcon_onLayout, cr_onLayout, bt_onLayout,
          hi, hc, isEmpty_update_y, apply_ite Rect.x, apply_ite Rect.width,
          apply_ite Rect.height]

lemma result_stable :
    (layoutResultRect measure (OnLayout measure s)).x = (layoutResultRect measure s).x ∧
      (layoutResultRect measure (OnLayout measure s)).width =
        (layoutResultRect measure s).width ∧
      (layoutResultRect measure (OnLayout measure s)).height =
        (layoutResultRect measure s).height := by
  obtain ⟨hix, hiw, hih⟩ := icon_stable measure s
  refine ⟨?_, ?_, ?_⟩ <;>
    · by_cases hc : s.rcResult.isEmpty = true <;>
        simp [layoutResultRect, rcResult_onLayout, font_onLayout, result_onLayout,
          cr_onLayout, bt_onLayout, hc, hiw, isEmpty_update_y, apply_ite Rect.x,
          apply_ite Rect.width, apply_ite Rect.height]

lemma getRight_result_stable :
    (layoutResultRect measure (OnLayout measure s)).getRight =
      (layoutResultRect measure s).getRight := by
  obtain ⟨hx, hw, _⟩ := result_stable measure s
  simp [Rect.getRight, hx, hw]

lemma minX_stable :
    layoutMinX measure (OnLayout measure s) = layoutMinX measure s := by
  simp [layoutMinX, text_stable, getRight_result_stable, cr_onLayout, bt_onLayout]

lemma minY_stable :
    layoutMinY measure (OnLayout measure s) = layoutMinY measure s := by
  obtain ⟨_, _, hih⟩ := icon_stable measure s
  obtain ⟨_, _, hrh⟩ := result_stable measure s
  simp [layoutMinY, text_stable, hih, hrh, cr_onLayout, bt_onLayout]

lemma divide_stable :
    layoutDivide measure (OnLayout measure s) = layoutDivide measure s := by
  simp [layoutDivide, text_stable, cr_onLayout, bt_onLayout]

lemma minX_le_newW : layoutMinX measure s ≤ layoutNewW measure s := by
  unfold layoutNewW
  split_ifs <;> omega

lemma minY_le_newH : layoutMinY measure s ≤ layoutNewH measure s := by
  unfold layoutNewH
  split_ifs <;> omega

lemma newW_stable :
    layoutNewW measure (OnLayout measure s) = (OnLayout measure s).bounds.width := by
  rw [show layoutNewW measure (OnLayout measure s) =
      (if (OnLayout measure s).bounds.width < layoutMinX measure (OnLayout measure s) then
        layoutMinX measure (OnLayout measure s)
      else (OnLayout measure s).bounds.width) from rfl]
  rw [minX_stable, boundsW_onLayout, if_neg]
  exact not_lt.mpr (minX_le_newW measure s)

lemma newH_stable :
    layoutNewH measure (OnLayout measure s) = (OnLayout measure s).bounds.height := by
  rw [show layoutNewH measure (OnLayout measure s) =
      (if (OnLayout measure s).bounds.height < layoutMinY measure (OnLayout measure s) then
        layoutMinY measure (OnLayout measure s)
      else (OnLayout measure s).bounds.height) from rfl]
  rw [minY_stable, boundsH_onLayout, if_neg]
  exact not_lt.mpr (minY_le_newH measure s)

lemma mid_stable :
    layoutMid measure (OnLayout measure s) = layoutMid measure s := by
  simp only [layoutMid, divide_stable, newH_stable, boundsH_onLayout]

lemma rcIcon_pass2 :
    ({ layoutIconRect (OnLayout measure s) with
        y := layoutMid measure (OnLayout measure s) -
          cppDiv (layoutIconRect (OnLayout measure s)).height 2 } : Rect) =
      (OnLayout measure s).rcIcon := by
  obtain ⟨hx, hw, hh⟩ := icon_stable measure s
  rw [rcIcon_onLayout]
  simp [Rect.mk.injEq, hx, hw, hh, mid_stable]

lemma rcResult_pass2 :
    ({ layoutResultRect measure (OnLayout measure s) with
        y := layoutMid measure (OnLayout measure s) -
          cppDiv (layoutResultRect measure (OnLayout measure s)).height 2 } : Rect) =
      (OnLayout measure s).rcResult := by
  obtain ⟨hx, hw, hh⟩ := result_stable measure s
  rw [rcResult_onLayout]
  simp [Rect.mk.injEq, hx, hw, hh, mid_stable]

end Stability

/-- C8: the layout pass is idempotent: running OnLayout twice with no
intervening change to any input leaves every field - the three cached
rectangles, minSize, divide and the bounds - identical to the result of
the first pass. -/
theorem claim8_layout_idempotent {F : Type} (measure : F → String → ℤ × ℤ)
    (s : NodeState F) :
    OnLayout measure (OnLayout measure s) = OnLayout measure s := by
  conv_lhs => rw [OnLayout]
  rw [text_stable, rcIcon_pass2, rcResult_pass2, minX_stable, minY_stable,
    divide_stable, newW_stable, newH_stable]
  rfl

/-! ## Claim C9 -/

/-- C9 counterexample: the claimed hit-test behavior omits the style
guard: for a node whose style is not Style_Custom, a point lying inside
the bounds and inside the translated result rectangle still yields the
generic tag, not the result tag. -/
theorem claim9_counterexample :
    (⟨"a", "b", none, (), Style.Style_Rectangle, 6, 10, ⟨2, 2, 3, 3⟩,
          ⟨10, 10, 20, 20⟩, ⟨0, 0, 4, 4⟩, ⟨0, 0⟩, 0, ⟨0, 0, 100, 60⟩⟩ :
        NodeState Unit).bounds.inside ⟨15, 15⟩ = true ∧
      (⟨"a", "b", none, (), Style.Style_Rectangle, 6, 10, ⟨2, 2, 3, 3⟩,
          ⟨10, 10, 20, 20⟩, ⟨0, 0, 4, 4⟩, ⟨0, 0⟩, 0, ⟨0, 0, 100, 60⟩⟩ :
        NodeState Unit).rcResult.inside ⟨15, 15⟩ = true ∧
      HitTest (⟨"a", "b", none, (), Style.Style_Rectangle, 6, 10, ⟨2, 2, 3, 3⟩,
          ⟨10, 10, 20, 20⟩, ⟨0, 0, 4, 4⟩, ⟨0, 0⟩, 0, ⟨0, 0, 100, 60⟩⟩ :
        NodeState Unit) ⟨15, 15⟩ ≠ HitValue.Hit_Result ∧
      HitTest (⟨"a", "b", none, (), Style.Style_Rectangle, 6, 10, ⟨2, 2, 3, 3⟩,
          ⟨10, 10, 20, 20⟩, ⟨0, 0, 4, 4⟩, ⟨0, 0⟩, 0, ⟨0, 0, 100, 60⟩⟩ :
        NodeState Unit) ⟨15, 15⟩ = HitValue.Hit_Yes := by
  refine ⟨by decide, by decide, ?_, ?_⟩ <;> decide

/-- C9 amended: for a node whose style is Style_Custom, HitTest returns
the none tag outside the bounds, and otherwise tests the cached
rectangles translated by the bounds' top-left corner in the fixed
priority order text (operation), result, icon, returning the tag of the
first containing region, else the generic tag; so a point in both the
result rectangle and the generic body yields the result tag. -/
theorem claim9_amended_hit_priority {F : Type} (s : NodeState F) (pt : Pt)
    (hstyle : s.style = Style.Style_Custom) :
    (s.bounds.inside pt = false → HitTest s pt = HitValue.Hit_No) ∧
      (s.bounds.inside pt = true →
        (s.rcText.inside ⟨pt.x - s.bounds.x, pt.y - s.bounds.y⟩ = true →
          HitTest s pt = HitValue.Hit_Operation) ∧
        (s.rcText.inside ⟨pt.x - s.bounds.x, pt.y - s.bounds.y⟩ = false →
          s.rcResult.inside ⟨pt.x - s.bounds.x, pt.y - s.bounds.y⟩ = true →
          HitTest s pt = HitValue.Hit_Result) ∧
        (s.rcText.inside ⟨pt.x - s.bounds.x, pt.y - s.bounds.y⟩ = false →
          s.rcResult.inside ⟨pt.x - s.bounds.x, pt.y - s.bounds.y⟩ = false →
          s.rcIcon.inside ⟨pt.x - s.bounds.x, pt.y - s.bounds.y⟩ = true →
          HitTest s pt = HitValue.Hit_Image) ∧
        (s.rcText.inside ⟨pt.x - s.bounds.x, pt.y - s.bounds.y⟩ = false →
          s.rcResult.inside ⟨pt.x - s.bounds.x, pt.y - s.bounds.y⟩ = false →
          s.rcIcon.inside ⟨pt.x - s.bounds.x, pt.y - s.bounds.y⟩ = false →
          HitTest s pt = HitValue.Hit_Yes)) := by
  constructor
  · intro hb
    simp [HitTest, hb]
  · intro hb
    refine ⟨?_, ?_, ?_, ?_⟩
    · intro h1
      simp [HitTest, hb, hstyle, h1]
    · intro h1 h2
      simp [HitTest, hb, hstyle, h1, h2]
    · intro h1 h2 h3
      simp [HitTest, hb, hstyle, h1, h2, h3]
    · intro h1 h2 h3
      simp [HitTest, hb, hstyle, h1, h2, h3]

/-- Witness for C9 at a Style_Custom node and a point inside both the
bounds and the translated result rectangle. -/
theorem claim9_witness :
    (⟨"a", "b", none, (), Style.Style_Custom, 6, 10, ⟨2, 2, 3, 3⟩,
          ⟨10, 10, 20, 20⟩, ⟨0, 0, 4, 4⟩, ⟨0, 0⟩, 0, ⟨0, 0, 100, 60⟩⟩ :
        NodeState Unit).style = Style.Style_Custom ∧
      (⟨"a", "b", none, (), Style.Style_Custom, 6, 10, ⟨2, 2, 3, 3⟩,
          ⟨10, 10, 20, 20⟩, ⟨0, 0, 4, 4⟩, ⟨0, 0⟩, 0, ⟨0, 0, 100, 60⟩⟩ :
        NodeState Unit).bounds.inside ⟨15, 15⟩ = true ∧
      HitTest (⟨"a", "b", none, (), Style.Style_Custom, 6, 10, ⟨2, 2, 3, 3⟩,
          ⟨10, 10, 20, 20⟩, ⟨0, 0, 4, 4⟩, ⟨0, 0⟩, 0, ⟨0, 0, 100, 60⟩⟩ :
        NodeState Unit) ⟨15, 15⟩ = HitValue.Hit_Result :=
  ⟨rfl, by decide,
    ((claim9_amended_hit_priority
          (⟨"a", "b", none, (), Style.Style_Custom, 6, 10, ⟨2, 2, 3, 3⟩,
            ⟨10, 10, 20, 20⟩, ⟨0, 0, 4, 4⟩, ⟨0, 0⟩, 0, ⟨0, 0, 100, 60⟩⟩ :
          NodeState Unit) ⟨15, 15⟩ rfl).2 (by decide)).2.1 (by decide) (by decide)⟩

/-! ## Claim C10 -/

/-- C10: for a node whose style is not Style_Custom, HitTest returns only
the none tag or the generic tag, and conversely a sub-region tag
(operation, result or image) can only be returned under Style_Custom. -/
theorem claim10_subregions_need_custom_style {F : Type} (s : NodeState F) (pt : Pt) :
    (s.style ≠ Style.Style_Custom →
        HitTest s pt = HitValue.Hit_No ∨ HitTest s pt = HitValue.Hit_Yes) ∧
      (HitTest s pt = HitValue.Hit_Operation ∨ HitTest s pt = HitValue.Hit_Result ∨
          HitTest s pt = HitValue.Hit_Image →
        s.style = Style.Style_Custom) := by
  have main : s.style ≠ Style.Style_Custom →
      HitTest s pt = HitValue.Hit_No ∨ HitTest s pt = HitValue.Hit_Yes := by
    intro h
    by_cases hin : s.bounds.inside pt = true
    · exact Or.inr (by simp [HitTest, hin, h])
    · exact Or.inl (by simp [HitTest, hin])
  refine ⟨main, ?_⟩
  intro hop
  by_contra hst
  rcases main hst with h | h <;> rw [h] at hop <;>
    rcases hop with h' | h' | h' <;> simp at h'

/-- Witness for C10 at a Style_Rectangle node. -/
theorem claim10_witness :
    (⟨"a", "b", none, (), Style.Style_Rectangle, 6, 10, ⟨2, 2, 3, 3⟩,
          ⟨10, 10, 20, 20⟩, ⟨0, 0, 4, 4⟩, ⟨0, 0⟩, 0, ⟨0, 0, 100, 60⟩⟩ :
        NodeState Unit).style ≠ Style.Style_Custom ∧
      (HitTest (⟨"a", "b", none, (), Style.Style_Rectangle, 6, 10, ⟨2, 2, 3, 3⟩,
            ⟨10, 10, 20, 20⟩, ⟨0, 0, 4, 4⟩, ⟨0, 0⟩, 0, ⟨0, 0, 100, 60⟩⟩ :
          NodeState Unit) ⟨15, 15⟩ = HitValue.Hit_No ∨
        HitTest (⟨"a", "b", none, (), Style.Style_Rectangle, 6, 10, ⟨2, 2, 3, 3⟩,
            ⟨10, 10, 20, 20⟩, ⟨0, 0, 4, 4⟩, ⟨0, 0⟩, 0, ⟨0, 0, 100, 60⟩⟩ :
          NodeState Unit) ⟨15, 15⟩ = HitValue.Hit_Yes) :=
  ⟨by decide,
    (claim10_subregions_need_custom_style
        (⟨"a", "b", none, (), Style.Style_Rectangle, 6, 10, ⟨2, 2, 3, 3⟩,
          ⟨10, 10, 20, 20⟩, ⟨0, 0, 4, 4⟩, ⟨0, 0⟩, 0, ⟨0, 0, 100, 60⟩⟩ :
        NodeState Unit) ⟨15, 15⟩).1 (by decide)⟩
